import Mathlib

/-!
Shallow embedding of the gotadoflux collector (the `collect` cycle of the
main package) and of the tado client (credential store, token lifecycle and
`AuthCheck` state machine from `tado/tado.go`), together with theorems that
check the specification's claims against it.

Modelling conventions:
* Time instants are integers (seconds); Go `t.Before(u)` is `t < u` and
  `time.Now()` is an explicit `now` parameter.
* Go `float32` sensor values are rationals: the program only copies them,
  it never computes with them.
* Go pointer fields are `Option`; a nil-pointer dereference, which panics
  in Go, is modelled by a `fault` (or `none`) result.
* Remote HTTP exchanges are oracles carried in an environment record:
  `Except String …` holds either the decoded response or the error the Go
  code would produce for that call.
-/

namespace Gotadoflux

/-- Mirrors Go `tado.Temperature`: pointer fields become `Option`. -/
structure Temperature where
  Celsius : Option Rat
  Timestamp : Option Int
deriving DecidableEq, Repr

/-- Mirrors Go `tado.Humidity`. -/
structure Humidity where
  Percentage : Option Rat
  Timestamp : Option Int
deriving DecidableEq, Repr

/-- Mirrors Go `tado.AcPower`. -/
structure AcPower where
  Value : Option String
  Timestamp : Option Int
deriving DecidableEq, Repr

/-- Mirrors Go `tado.HeatingPower`. -/
structure HeatingPower where
  Percentage : Option Rat
  Timestamp : Option Int
deriving DecidableEq, Repr

/-- Mirrors Go `tado.SensorDataPoints`. -/
structure SensorDataPoints where
  InsideTemperature : Option Temperature
  Humidity : Option Humidity
deriving DecidableEq, Repr

/-- Mirrors Go `tado.ActivityDataPoints`. -/
structure ActivityDataPoints where
  AcPower : Option AcPower
  HeatingPower : Option HeatingPower
deriving DecidableEq, Repr

/-- Mirrors Go `tado.ZoneState`. -/
structure ZoneState where
  SensorDataPoints : SensorDataPoints
  ActivityDataPoints : ActivityDataPoints
deriving DecidableEq, Repr

/-- Mirrors Go `tado.Zone`. -/
structure Zone where
  Id : Int
  Name : String
deriving DecidableEq, Repr

/-- Mirrors Go `tado.Home`. -/
structure Home where
  Id : Int
  Name : String
deriving DecidableEq, Repr

/-- One entry of `conf.Collect` (a configured premises: id and name). -/
structure HomeConfig where
  Id : Int
  Name : String
deriving DecidableEq, Repr

/-- An influx point as built by `client.NewPoint` in `collect`: name, tag
set, field set and the source timestamp. -/
structure Point where
  name : String
  tags : List (String × String)
  fields : List (String × Rat)
  time : Int
deriving DecidableEq, Repr

/-- Result of processing one zone state inside the `collect` loop:
`skipped` models `continue`, `fault` models a nil-pointer panic, and
`emitted` carries the appended point. -/
inductive StepResult where
  | skipped
  | fault
  | emitted (p : Point)
deriving DecidableEq, Repr

/-- Go `strings.ToUpper` (character-wise upper-casing; only its ASCII
behaviour is exercised, the value is compared with "ON"). -/
def strToUpper (s : String) : String := ⟨s.data.map Char.toUpper⟩

/-- The power-percentage derivation of `collect` (lines 78-86): start at 0,
set 100 if `AcPower` is present and its dereferenced `Value` upper-cases to
"ON", then overwrite with the dereferenced `HeatingPower.Percentage` when
`HeatingPower` is present.  `none` models the nil dereference panic. -/
def powerPcOf (adp : ActivityDataPoints) : Option Rat :=
  let base : Option Rat :=
    match adp.AcPower with
    | none => some 0
    | some ac =>
      match ac.Value with
      | none => none
      | some v => if strToUpper v = "ON" then some 100 else some 0
  match base with
  | none => none
  | some b =>
    match adp.HeatingPower with
    | none => some b
    | some hp =>
      match hp.Percentage with
      | none => none
      | some p => some p

/-- The body of the per-zone-state loop of `collect` (lines 68-107): skip
when inside temperature is absent, skip when its timestamp is `Before`
the watermark `lastSync`, otherwise build the point, dereferencing the
temperature, humidity and power fields exactly where the Go code does. -/
def processZoneState (homeId : Int) (homeName zoneId zoneName : String)
    (lastSync : Int) (st : ZoneState) : StepResult :=
  match st.SensorDataPoints.InsideTemperature with
  | none => .skipped
  | some temp =>
    match temp.Timestamp with
    | none => .fault
    | some ts =>
      if ts < lastSync then .skipped
      else
        match powerPcOf st.ActivityDataPoints with
        | none => .fault
        | some powerPc =>
          match temp.Celsius with
          | none => .fault
          | some c =>
            match st.SensorDataPoints.Humidity with
            | none => .fault
            | some h =>
              match h.Percentage with
              | none => .fault
              | some hum =>
                .emitted
                  { name := homeName ++ "." ++ zoneName
                  , tags := [("homeId", toString homeId), ("homeName", homeName),
                             ("zoneId", zoneId), ("zoneName", zoneName),
                             ("source", "tado")]
                  , fields := [("temperature", c), ("humidity", hum),
                               ("power", powerPc)]
                  , time := ts }

/-- The process-wide `zones` map: premises id to (zone id to zone name). -/
abbrev Cache := List (Int × List (String × String))

/-- Lookup in the outer `zones` map (first binding wins, as writes cons). -/
def cacheFind (c : Cache) (k : Int) : Option (List (String × String)) :=
  match c with
  | [] => none
  | (k', v) :: rest => if k' = k then some v else cacheFind rest k

/-- Lookup in a per-premises zone-id map. -/
def entryFind (m : List (String × String)) (k : String) : Option String :=
  match m with
  | [] => none
  | (k', v) :: rest => if k' = k then some v else entryFind rest k

/-- Map assignment `zones[home.Id] = …` (the new binding shadows any old). -/
def cacheInsert (c : Cache) (k : Int) (v : List (String × String)) : Cache :=
  (k, v) :: c

/-- The topology-reconciliation step of `collect` (lines 43-67) for one
premises: decide staleness (`!homefound || !allzonesfound`), fetch via
`GetZones` when stale (its outcome is the oracle `zonesR`), replace the
cache entry on success, and on fetch failure keep the cache and skip the
premises (`continue`).  Returns (new cache, number of fetches issued,
whether the premises is skipped). -/
def resolveTopology (cache : Cache) (homeId : Int) (observed : List String)
    (zonesR : Except String (List Zone)) : Cache × Nat × Bool :=
  let homefound := (cacheFind cache homeId).isSome
  let allzonesfound :=
    match cacheFind cache homeId with
    | none => true
    | some entry => observed.all (fun z => (entryFind entry z).isSome)
  if homefound = false ∨ allzonesfound = false then
    match zonesR with
    | .error _ => (cache, 1, true)
    | .ok zs =>
      (cacheInsert cache homeId (zs.map (fun z => (toString z.Id, z.Name))), 1, false)
  else (cache, 0, false)

/-- The inner `for zoneId, state := range states.ZoneStates` loop, folding
`processZoneState` over the states and appending emitted points; `none`
models the process aborting on a nil-pointer panic. -/
def processStatesList (cache : Cache) (homeId : Int) (homeName : String)
    (lastSync : Int) (states : List (String × ZoneState)) (acc : List Point) :
    Option (List Point) :=
  match states with
  | [] => some acc
  | (zoneId, st) :: rest =>
    let zoneName := (entryFind ((cacheFind cache homeId).getD []) zoneId).getD ""
    match processZoneState homeId homeName zoneId zoneName lastSync st with
    | .fault => none
    | .skipped => processStatesList cache homeId homeName lastSync rest acc
    | .emitted p => processStatesList cache homeId homeName lastSync rest (acc ++ [p])

/-- One iteration of the per-home loop of `collect` (lines 37-108): fetch
zone states (oracle `statesR`; on error `continue`), reconcile topology,
then extract points.  Go map iteration order is unspecified; the model
iterates the given association list in order. -/
def collectHome (cache : Cache) (pts : List Point) (lastSync : Int)
    (home : HomeConfig) (statesR : Except String (List (String × ZoneState)))
    (zonesR : Except String (List Zone)) : Option (Cache × List Point) :=
  match statesR with
  | .error _ => some (cache, pts)
  | .ok states =>
    let observed := states.map Prod.fst
    match resolveTopology cache home.Id observed zonesR with
    | (cache', _, skip) =>
      if skip then some (cache', pts)
      else
        match processStatesList cache' home.Id home.Name lastSync states pts with
        | none => none
        | some pts' => some (cache', pts')

/-- The `for _, home := range conf.Collect` loop of `collect`. -/
def runHomes (cache : Cache) (pts : List Point) (lastSync : Int)
    (homes : List (HomeConfig × Except String (List (String × ZoneState)) ×
      Except String (List Zone))) : Option (Cache × List Point) :=
  match homes with
  | [] => some (cache, pts)
  | (h, sR, zR) :: rest =>
    match collectHome cache pts lastSync h sR zR with
    | none => none
    | some (c', p') => runHomes c' p' lastSync rest

/-- A full `collect` cycle (lines 35-126).  `writeOk` is the outcome of
`influx.Write` (the batch-points constructor cannot fail here: the
precision `"s"` is valid).  On write failure the function returns with
`lastSync` and the accumulated `points` untouched; on success `lastSync`
becomes `now` and `points` is cleared.  Result: (cache, batch handed to
the sink, new `lastSync`, new `points`); `none` models a panic. -/
def collect (cache : Cache) (pts : List Point) (lastSync : Int)
    (homes : List (HomeConfig × Except String (List (String × ZoneState)) ×
      Except String (List Zone))) (writeOk : Bool) (now : Int) :
    Option (Cache × List Point × Int × List Point) :=
  match runHomes cache pts lastSync homes with
  | none => none
  | some (c, batch) =>
    if writeOk then some (c, batch, now, [])
    else some (c, batch, lastSync, batch)

/-- Metadata and content of the refresh-token cache file, as seen by
`os.Stat` / `ioutil.ReadFile`: permission bits, modification time, and the
stored bytes (`Size()` is the content length). -/
structure FileInfo where
  mode : Nat
  modTime : Int
  content : String
deriving DecidableEq, Repr

/-- The file system at the configured `refreshTokenPath`: `none` when the
file does not exist (`os.Stat` fails with not-exist). -/
structure FS where
  file : Option FileInfo
deriving DecidableEq, Repr

/-- Decoded body of a successful token response. -/
structure TokenResponse where
  AccessToken : String
  RefreshToken : String
  ExpiresIn : Nat
deriving DecidableEq, Repr

/-- Environment of one `AuthCheck` call: the current instant, the platform
flag (`runtime.GOOS == "windows"`), the process umask, whether
`ioutil.WriteFile` succeeds, and the oracle outcomes of the two token
exchanges (an `error` carries the `error_description` for a 4xx/5xx
response, or the transport failure text).  `createMode` is the mode the
operating system gives a file `WriteFile` newly creates: the code's
permission argument `0666` masked by the process umask (`0644` under the
default umask `022`). -/
structure Env where
  now : Int
  windows : Bool
  createMode : Nat
  writeOk : Bool
  exchangeRefresh : Except String TokenResponse
  exchangePassword : Except String TokenResponse
deriving Repr

/-- Modelled from the spec: the SecretCodec (`TokenEncrypt`, used by
`SaveRefreshToken` but absent from the sources) is a reversible at-rest
obfuscation, not cryptographically strong; modelled as reversing the
character sequence. -/
def TokenEncrypt (s : String) : String := ⟨s.data.reverse⟩

/-- Modelled from the spec: the SecretCodec inverse (`TokenDecrypt`, used
by `GetRefreshToken` but absent from the sources); reverses back. -/
def TokenDecrypt (s : String) : String := ⟨s.data.reverse⟩

/-- The fixed freshness window `180 * 25 * time.Hour`, in seconds. -/
def freshnessWindow : Int := 180 * 25 * 3600

/-- Go `Tado.SaveRefreshToken` (lines 115-125): refuse an empty token,
then `ioutil.WriteFile(path, enc, 0666)` — which keeps the mode of an
existing file and creates a missing one with `env.createMode` (the `0666`
argument masked by the process umask). -/
def SaveRefreshToken (env : Env) (fs : FS) (token : String) : Except String FS :=
  if token.length = 0 then .error "Cannot save empty refresh token"
  else if env.writeOk = false then .error "write failed"
  else
    .ok ⟨some
      { mode :=
          match fs.file with
          | some f => f.mode
          | none => env.createMode
      , modTime := env.now
      , content := TokenEncrypt token }⟩

/-- Go `Tado.GetRefreshToken` (lines 127-146): a `Stat` failure or a wrong
mode (off Windows) is an error; a stale or empty file yields `("", nil)`;
otherwise the decoded token. -/
def GetRefreshToken (env : Env) (fs : FS) : Except String String :=
  match fs.file with
  | none => .error "stat: file does not exist"
  | some f =>
    if f.mode ≠ 0o600 ∧ env.windows = false then
      .error "refresh token cache is not properly protected"
    else if f.modTime + freshnessWindow < env.now then .ok ""
    else if f.content.length = 0 then .ok ""
    else .ok (TokenDecrypt f.content)

/-- Go `Tado.HasRefreshToken` (lines 148-163): the same four checks, all
collapsed to a boolean. -/
def HasRefreshToken (env : Env) (fs : FS) : Bool :=
  match fs.file with
  | none => false
  | some f =>
    if f.mode ≠ 0o600 ∧ env.windows = false then false
    else if f.modTime + freshnessWindow < env.now then false
    else if f.content.length = 0 then false
    else true

/-- The in-memory session fields of `Tado`: `accessToken`, `expires`,
`refresh`. -/
structure TadoMem where
  accessToken : String
  expires : Int
  refresh : Int
deriving DecidableEq, Repr

/-- Go `Tado.RefreshToken` (lines 202-243): guard on `HasRefreshToken`,
read the stored token, run the refresh exchange, persist the new refresh
token (failure aborts), then install the new session with
`expires = now + ExpiresIn` and `refresh = now + ExpiresIn/2`. -/
def RefreshToken (env : Env) (fs : FS) : Except String (TadoMem × FS) :=
  if HasRefreshToken env fs = false then .error "No refresh token"
  else
    match GetRefreshToken env fs with
    | .error e => .error e
    | .ok _storedToken =>
      match env.exchangeRefresh with
      | .error d => .error ("could not get token: " ++ d)
      | .ok tokens =>
        match SaveRefreshToken env fs tokens.RefreshToken with
        | .error _ => .error "Could not save refresh token"
        | .ok fs1 =>
          .ok ({ accessToken := tokens.AccessToken
               , expires := env.now + (tokens.ExpiresIn : Int)
               , refresh := env.now + ((tokens.ExpiresIn / 2 : Nat) : Int) }, fs1)

/-- Go `Tado.AquireToken` (lines 165-200): the password exchange, then the
same persist-and-install sequence as the refresh path. -/
def AquireToken (env : Env) (fs : FS) : Except String (TadoMem × FS) :=
  match env.exchangePassword with
  | .error d => .error ("could not get token: " ++ d)
  | .ok tokens =>
    match SaveRefreshToken env fs tokens.RefreshToken with
    | .error _ => .error "Could not save refresh token"
    | .ok fs1 =>
      .ok ({ accessToken := tokens.AccessToken
           , expires := env.now + (tokens.ExpiresIn : Int)
           , refresh := env.now + ((tokens.ExpiresIn / 2 : Nat) : Int) }, fs1)

/-- The `if t.HasRefreshToken() { t.RefreshToken() } else { t.AquireToken() }`
shape that `AuthCheck` uses in both of its blocks, instrumented with how
many acquire-by-password and refresh calls were issued. -/
def renewAttempt (env : Env) (fs : FS) :
    Except String (TadoMem × FS) × Nat × Nat :=
  if HasRefreshToken env fs then (RefreshToken env fs, 0, 1)
  else (AquireToken env fs, 1, 0)

/-- Observable outcome of one `AuthCheck` call: the returned error (if
any), the final in-memory session and file state, and how many
acquire-by-password / refresh calls were issued. -/
structure AuthOutcome where
  result : Except String Unit
  mem : TadoMem
  fs : FS
  aquireCalls : Nat
  refreshCalls : Nat
deriving Repr

/-- The second and third blocks of `AuthCheck` (lines 272-293): when no
access token is held, attempt refresh-or-acquire and propagate failure;
finally fail if the token is still empty. -/
def authCheckTail (env : Env) (mem : TadoMem) (fs : FS) (aq rf : Nat) :
    AuthOutcome :=
  if mem.accessToken.length = 0 then
    match renewAttempt env fs with
    | (.error e, aq2, rf2) => ⟨.error e, mem, fs, aq + aq2, rf + rf2⟩
    | (.ok (mem1, fs1), aq2, rf2) =>
      if mem1.accessToken.length = 0 then
        ⟨.error "No access token", mem1, fs1, aq + aq2, rf + rf2⟩
      else ⟨.ok (), mem1, fs1, aq + aq2, rf + rf2⟩
  else ⟨.ok (), mem, fs, aq, rf⟩

/-- Go `Tado.AuthCheck` (lines 245-294).  With a held token whose renewal
instant has passed, attempt refresh-or-acquire: on failure return the
error only when `expires` is strictly before `now` (hard expiry),
otherwise swallow it and keep the old session.  A held token before its
renewal instant returns success directly (the fall-through produces the
identical outcome). -/
def AuthCheck (env : Env) (mem0 : TadoMem) (fs0 : FS) : AuthOutcome :=
  if 0 < mem0.accessToken.length ∧ mem0.refresh ≤ env.now then
    match renewAttempt env fs0 with
    | (.error e, aq, rf) =>
      if mem0.expires < env.now then ⟨.error e, mem0, fs0, aq, rf⟩
      else authCheckTail env mem0 fs0 aq rf
    | (.ok (mem1, fs1), aq, rf) => authCheckTail env mem1 fs1 aq rf
  else authCheckTail env mem0 fs0 0 0

/-- Result of `Tado.GetHome`: `fault` models the out-of-range panic of
`me.Homes[0]` on an empty list. -/
inductive GetHomeResult where
  | fault
  | err (e : String)
  | ok (h : Home)
deriving DecidableEq, Repr

/-- Go `Tado.GetHome` (lines 296-337) with the `AuthCheck` outcome and the
decoded `/me` response as oracles: propagate either failure, then return
the first element of `Homes` without checking that the list is
non-empty. -/
def GetHome (authResult : Except String Unit)
    (resp : Except String (List Home)) : GetHomeResult :=
  match authResult with
  | .error e => .err e
  | .ok _ =>
    match resp with
    | .error e => .err e
    | .ok homes =>
      match homes with
      | [] => .fault
      | h :: _ => .ok h

/-! ### Concrete fixtures used by witnesses and counterexamples -/

/-- Scenario A zone state: inside temperature 21.5 °C at T = 100 s,
humidity 45 %, heating power 30 %, no AC data point. -/
def stA : ZoneState :=
  { SensorDataPoints :=
      { InsideTemperature := some { Celsius := some (43/2), Timestamp := some 100 }
      , Humidity := some { Percentage := some 45, Timestamp := some 100 } }
  , ActivityDataPoints :=
      { AcPower := none
      , HeatingPower := some { Percentage := some 30, Timestamp := some 100 } } }

/-- As `stA` but with an AC data point reading "ON" as well. -/
def stBoth : ZoneState :=
  { SensorDataPoints := stA.SensorDataPoints
  , ActivityDataPoints :=
      { AcPower := some { Value := some "ON", Timestamp := some 100 }
      , HeatingPower := some { Percentage := some 30, Timestamp := some 100 } } }

/-- Temperature present and admitted, humidity absent, no activity data. -/
def stNoHumidity : ZoneState :=
  { SensorDataPoints :=
      { InsideTemperature := some { Celsius := some (43/2), Timestamp := some 100 }
      , Humidity := none }
  , ActivityDataPoints := { AcPower := none, HeatingPower := none } }

/-- Temperature and humidity present, AC data point present but its value
pointer is nil, no heating-power data point. -/
def stAcNoValue : ZoneState :=
  { SensorDataPoints := stA.SensorDataPoints
  , ActivityDataPoints :=
      { AcPower := some { Value := none, Timestamp := some 100 }
      , HeatingPower := none } }

/-- Temperature and humidity present, neither AC nor heating-power data. -/
def stMinimal : ZoneState :=
  { SensorDataPoints := stA.SensorDataPoints
  , ActivityDataPoints := { AcPower := none, HeatingPower := none } }

/-- The point scenario A produces. -/
def ptA : Point :=
  { name := "Home.Lounge"
  , tags := [("homeId", "1"), ("homeName", "Home"), ("zoneId", "10"),
             ("zoneName", "Lounge"), ("source", "tado")]
  , fields := [("temperature", 43/2), ("humidity", 45), ("power", 30)]
  , time := 100 }

/-- A trusted credential file: mode `0600`, fresh, non-empty. -/
def fsGood : FS := ⟨some { mode := 0o600, modTime := 0, content := "abc" }⟩

/-- An environment whose refresh and password exchanges both fail. -/
def envSoft : Env :=
  { now := 100, windows := false, createMode := 0o644, writeOk := true
  , exchangeRefresh := Except.error "invalid_grant"
  , exchangePassword := Except.error "bad password" }

/-- A held session past its renewal watermark but before expiry at
`now = 100`. -/
def memSoft : TadoMem := { accessToken := "tok", expires := 200, refresh := 50 }

/-- A held session already hard-expired at `now = 100`. -/
def memHard : TadoMem := { accessToken := "tok", expires := 99, refresh := 50 }

/-- A held session whose expiry is exactly `now = 100`. -/
def memBoundary : TadoMem := { accessToken := "tok", expires := 100, refresh := 50 }

/-- An environment for the store round-trip at `now = 0`. -/
def envRT : Env :=
  { now := 0, windows := false, createMode := 0o644, writeOk := true
  , exchangeRefresh := Except.error "e", exchangePassword := Except.error "e" }

/-! ### Claims about the collection pipeline -/

/-- C1 (amended): a Measurement is constructed from a zone state only when
its inside-temperature timestamp is at or after (not `Before`) the
`lastSync` watermark, and every state whose timestamp is strictly before
the watermark is skipped; a timestamp exactly equal to the watermark is
admitted, not skipped. -/
theorem c1_watermark_strictness (homeId : Int) (homeName zoneId zoneName : String)
    (lastSync : Int) (st : ZoneState) :
    (∀ p, processZoneState homeId homeName zoneId zoneName lastSync st = .emitted p →
      ∃ temp ts, st.SensorDataPoints.InsideTemperature = some temp ∧
        temp.Timestamp = some ts ∧ lastSync ≤ ts ∧ p.time = ts) ∧
    (∀ temp ts, st.SensorDataPoints.InsideTemperature = some temp →
      temp.Timestamp = some ts → ts < lastSync →
      processZoneState homeId homeName zoneId zoneName lastSync st = .skipped) := by
  constructor
  · intro p hp
    unfold processZoneState at hp
    split at hp
    next => simp at hp
    next temp hIT =>
      split at hp
      next => simp at hp
      next ts hts =>
        split at hp
        next => simp at hp
        next hge =>
          split at hp
          next => simp at hp
          next pw hpw =>
            split at hp
            next => simp at hp
            next c hc =>
              split at hp
              next => simp at hp
              next h hh =>
                split at hp
                next => simp at hp
                next hum hhp =>
                  refine ⟨temp, ts, hIT, hts, le_of_not_lt hge, ?_⟩
                  injection hp with hp'
                  rw [← hp']
  · intro temp ts hIT hts hlt
    simp [processZoneState, hIT, hts, hlt]

/-- C1 witness: a state observed strictly before the watermark is
skipped. -/
theorem c1_watermark_strictness_witness :
    processZoneState 1 "Home" "10" "Lounge" 200 stA = .skipped :=
  (c1_watermark_strictness 1 "Home" "10" "Lounge" 200 stA).2
    { Celsius := some (43/2), Timestamp := some 100 } 100 rfl rfl (by decide)

/-- C1 counterexample: with the watermark at 100 s, a zone state whose
inside-temperature timestamp is exactly 100 s — equal to the watermark —
is not skipped: `collect` builds the Measurement, because the code only
skips timestamps strictly `Before` the watermark. -/
theorem c1_equal_timestamp_emitted :
    processZoneState 1 "Home" "10" "Lounge" 100 stA = .emitted ptA := by rfl

/-- C4: evaluating the extraction at states exercising the optional
parts.  A state with inside temperature admitted past the watermark but
humidity absent makes the code dereference a nil `Humidity` pointer — a
panic, not a constructed Measurement; likewise an AC data point present
with a nil `Value`.  With both activity data points absent (and humidity
present) construction does complete, with power 0. -/
theorem c4_optional_fields_fault_eval :
    processZoneState 1 "Home" "10" "Lounge" 0 stNoHumidity = .fault ∧
    processZoneState 1 "Home" "10" "Lounge" 0 stAcNoValue = .fault ∧
    processZoneState 1 "Home" "10" "Lounge" 0 stMinimal = .emitted
      { name := "Home.Lounge"
      , tags := [("homeId", "1"), ("homeName", "Home"), ("zoneId", "10"),
                 ("zoneName", "Lounge"), ("source", "tado")]
      , fields := [("temperature", 43/2), ("humidity", 45), ("power", 0)]
      , time := 100 } :=
  ⟨rfl, rfl, rfl⟩

/-- C9: scenario A — one premises "Home" (id 1) with cached zone
"Lounge" (id 10), a state snapshot with temperature 21.5 °C at T = 100 s,
humidity 45 %, heating power 30 %, watermark 0: one cycle hands the sink
exactly one Measurement named "Home.Lounge" with field power = 30 and
tags homeId = "1", zoneId = "10"; and when an AC reading "ON" is also
present, the heating-power percentage still wins the power derivation. -/
theorem c9_scenario_a :
    collect [(1, [("10", "Lounge")])] [] 0
      [({ Id := 1, Name := "Home" }, .ok [("10", stA)], .ok [])] true 500 =
      some ([(1, [("10", "Lounge")])], [ptA], 500, []) ∧
    processZoneState 1 "Home" "10" "Lounge" 0 stBoth = .emitted ptA :=
  ⟨rfl, rfl⟩

/-- C6: once the per-home loop has produced the batch, a failed sink write
leaves `lastSync` unchanged and retains the whole batch as the pending
`points`, while a successful write — the batch may be empty — advances
`lastSync` to `now` and clears `points`. -/
theorem c6_sink_outcome_watermark (cache : Cache) (pts : List Point) (ls : Int)
    (homes : List (HomeConfig × Except String (List (String × ZoneState)) ×
      Except String (List Zone))) (now : Int) (c : Cache) (batch : List Point)
    (h : runHomes cache pts ls homes = some (c, batch)) :
    collect cache pts ls homes false now = some (c, batch, ls, batch) ∧
    collect cache pts ls homes true now = some (c, batch, now, []) := by
  simp [collect, h]

/-- C6 witness: a cycle over no premises yields an empty batch; the failed
write keeps the watermark at 0, the successful write advances it to 7. -/
theorem c6_sink_outcome_watermark_witness :
    collect [] [] 0 [] false 7 = some ([], [], 0, []) ∧
    collect [] [] 0 [] true 7 = some ([], [], 7, []) :=
  c6_sink_outcome_watermark [] [] 0 [] 7 [] [] rfl

/-- C10: `GetHome` propagates auth and transport errors, but takes the
first element of the decoded homes list without checking non-emptiness:
an authorized response with an empty list faults (out-of-range panic)
instead of returning an error, and a non-empty list yields its head. -/
theorem c10_gethome_first_element :
    (GetHome (.ok ()) (.ok []) = .fault) ∧
    (∀ (h : Home) (t : List Home), GetHome (.ok ()) (.ok (h :: t)) = .ok h) :=
  ⟨rfl, fun _ _ => rfl⟩

/-- C10 witness: a one-element homes list yields that home. -/
theorem c10_gethome_first_element_witness :
    GetHome (.ok ()) (.ok [{ Id := 1, Name := "Home" }]) =
      .ok { Id := 1, Name := "Home" } :=
  c10_gethome_first_element.2 { Id := 1, Name := "Home" } []


/-- C7: for one premises in one cycle, the topology step issues exactly
one `GetZones` fetch precisely when the premises has no cache entry yet
or some zone id observed in the fetched states is absent from its entry,
and zero fetches otherwise; a failed fetch leaves the previous cache
entry in place and skips that premises, and the cycle goes on with the
remaining premises. -/
theorem c7_topology_fetch_policy (cache : Cache) (homeId : Int)
    (sts : List (String × ZoneState)) (zonesR : Except String (List Zone)) :
    ((resolveTopology cache homeId (sts.map Prod.fst) zonesR).2.1 = 1 ↔
      (cacheFind cache homeId = none ∨
        ∃ entry, cacheFind cache homeId = some entry ∧
          ∃ z ∈ sts.map Prod.fst, entryFind entry z = none)) ∧
    ((resolveTopology cache homeId (sts.map Prod.fst) zonesR).2.1 = 0 ↔
      ¬(cacheFind cache homeId = none ∨
        ∃ entry, cacheFind cache homeId = some entry ∧
          ∃ z ∈ sts.map Prod.fst, entryFind entry z = none)) ∧
    (∀ e, zonesR = Except.error e →
      (cacheFind cache homeId = none ∨
        ∃ entry, cacheFind cache homeId = some entry ∧
          ∃ z ∈ sts.map Prod.fst, entryFind entry z = none) →
      (resolveTopology cache homeId (sts.map Prod.fst) zonesR).1 = cache ∧
      (resolveTopology cache homeId (sts.map Prod.fst) zonesR).2.2 = true ∧
      ∀ (pts : List Point) (ls : Int) (home : HomeConfig)
        (rest : List (HomeConfig × Except String (List (String × ZoneState)) ×
          Except String (List Zone))),
        home.Id = homeId →
        runHomes cache pts ls ((home, Except.ok sts, zonesR) :: rest) =
          runHomes cache pts ls rest) := by
  rcases hfind : cacheFind cache homeId with _ | entry
  · cases zonesR with
    | error e =>
      refine ⟨by simp [resolveTopology, hfind], by simp [resolveTopology, hfind], ?_⟩
      intro e' he' hstale
      refine ⟨by simp [resolveTopology, hfind], by simp [resolveTopology, hfind], ?_⟩
      intro pts ls home rest hhid
      subst hhid
      simp [runHomes, collectHome, resolveTopology, hfind]
    | ok zs =>
      refine ⟨by simp [resolveTopology, hfind], by simp [resolveTopology, hfind], ?_⟩
      intro e' he'
      simp at he'
  · cases hall : (sts.map Prod.fst).all (fun z => (entryFind entry z).isSome) with
    | true =>
      have hforall : ∀ (x : String) (y : ZoneState), (x, y) ∈ sts →
          ¬entryFind entry x = none := by
        intro x y hxy
        have hx : x ∈ sts.map Prod.fst := List.mem_map_of_mem Prod.fst hxy
        rw [List.all_eq_true] at hall
        have hx' := hall x hx
        simpa [Option.isSome_iff_ne_none] using hx'
      refine ⟨?_, ?_, ?_⟩
      · simp only [resolveTopology, hfind, hall]
        simp [hfind]
        exact hforall
      · simp only [resolveTopology, hfind, hall]
        simp [hfind]
        exact hforall
      · intro e' he' hstale
        exfalso
        rcases hstale with h | ⟨entry', heq, z, hz, hzn⟩
        · simp at h
        · injection heq with heq'
          subst heq'
          obtain ⟨⟨a, b⟩, hp, hpz⟩ := List.mem_map.mp hz
          simp only at hpz
          subst hpz
          exact hforall a b hp hzn
    | false =>
      have hexists : ∃ z, (∃ x, (z, x) ∈ sts) ∧ entryFind entry z = none := by
        by_contra hc
        push_neg at hc
        have hT : (sts.map Prod.fst).all (fun z => (entryFind entry z).isSome) = true := by
          rw [List.all_eq_true]
          intro z hz
          obtain ⟨⟨a, b⟩, hp, hpz⟩ := List.mem_map.mp hz
          simp only at hpz
          subst hpz
          have ha := hc a ⟨b, hp⟩
          simpa [Option.isSome_iff_ne_none] using ha
        rw [hall] at hT
        simp at hT
      cases zonesR with
      | error e =>
        refine ⟨?_, ?_, ?_⟩
        · simp only [resolveTopology, hfind, hall]
          simp [hfind]
          exact hexists
        · simp only [resolveTopology, hfind, hall]
          simp [hfind]
          exact hexists
        intro e' he' hst
        refine ⟨by simp [resolveTopology, hfind, hall], by simp [resolveTopology, hfind, hall], ?_⟩
        intro pts ls home rest hhid
        subst hhid
        simp [runHomes, collectHome, resolveTopology, hfind, hall]
      | ok zs =>
        refine ⟨?_, ?_, ?_⟩
        · simp only [resolveTopology, hfind, hall]
          simp [hfind]
          exact hexists
        · simp only [resolveTopology, hfind, hall]
          simp [hfind]
          exact hexists
        intro e' he'
        simp at he'

/-- C7 witness: a premises never seen before whose fetch fails counts one
fetch, and the cycle simply moves past it. -/
theorem c7_topology_fetch_policy_witness :
    (resolveTopology [] 1 (([] : List (String × ZoneState)).map Prod.fst)
      (Except.error "boom")).2.1 = 1 ∧
    runHomes [] [] 0 [({ Id := 1, Name := "Home" }, Except.ok [], Except.error "boom")] =
      runHomes [] [] 0 [] := by
  have h := c7_topology_fetch_policy [] 1 [] (Except.error "boom")
  exact ⟨h.1.mpr (Or.inl rfl),
    (h.2.2 "boom" rfl (Or.inl rfl)).2.2 [] 0 { Id := 1, Name := "Home" } [] rfl⟩

/-! ### Claims about the credential store and lifecycle manager -/

/-- C2 (amended): `GetRefreshToken` returns "not found" (empty string, no
error) only for a stale file and for an empty file; a missing file
returns the `os.Stat` error and a wrong permission mode (off Windows)
returns a protection error, contrary to the claim's "never an error". -/
theorem c2_load_not_found_cases (env : Env) (f : FileInfo) :
    (∃ e, GetRefreshToken env ⟨none⟩ = .error e) ∧
    (f.mode ≠ 0o600 → env.windows = false →
      ∃ e, GetRefreshToken env ⟨some f⟩ = .error e) ∧
    ((f.mode = 0o600 ∨ env.windows = true) →
      f.modTime + freshnessWindow < env.now →
      GetRefreshToken env ⟨some f⟩ = .ok "") ∧
    ((f.mode = 0o600 ∨ env.windows = true) →
      ¬(f.modTime + freshnessWindow < env.now) →
      f.content.length = 0 →
      GetRefreshToken env ⟨some f⟩ = .ok "") := by
  refine ⟨⟨_, rfl⟩, ?_, ?_, ?_⟩
  · intro hm hw
    exact ⟨"refresh token cache is not properly protected",
      by simp [GetRefreshToken, hm, hw]⟩
  · intro hmw hstale
    have hcond : ¬(f.mode ≠ 0o600 ∧ env.windows = false) := by
      rcases hmw with h | h <;> simp [h]
    simp [GetRefreshToken, hcond, hstale]
  · intro hmw hfresh hlen
    have hcond : ¬(f.mode ≠ 0o600 ∧ env.windows = false) := by
      rcases hmw with h | h <;> simp [h]
    simp [GetRefreshToken, hcond, hfresh, hlen]

/-- C2 witness: the missing-file case errors, and a fresh check of a
stale file (watermark `now` past the freshness window) yields "not
found" without error. -/
theorem c2_load_not_found_cases_witness :
    (∃ e, GetRefreshToken
      { now := 0, windows := false, createMode := 0o644, writeOk := true
      , exchangeRefresh := Except.error "e", exchangePassword := Except.error "e" }
      ⟨none⟩ = .error e) ∧
    GetRefreshToken
      { now := 16200001, windows := false, createMode := 0o644, writeOk := true
      , exchangeRefresh := Except.error "e", exchangePassword := Except.error "e" }
      ⟨some { mode := 0o600, modTime := 0, content := "abc" }⟩ = .ok "" := by
  constructor
  · exact (c2_load_not_found_cases _ { mode := 0o600, modTime := 0, content := "" }).1
  · exact (c2_load_not_found_cases _ { mode := 0o600, modTime := 0, content := "abc" }).2.2.1
      (Or.inl rfl) (by decide)

/-- C2 counterexample: with the file missing, `GetRefreshToken` returns
an error (not "not found"); likewise for a file whose mode is `0644`. -/
theorem c2_error_cases_cex :
    GetRefreshToken
      { now := 0, windows := false, createMode := 0o644, writeOk := true
      , exchangeRefresh := Except.error "e", exchangePassword := Except.error "e" }
      ⟨none⟩ = .error "stat: file does not exist" ∧
    GetRefreshToken
      { now := 0, windows := false, createMode := 0o644, writeOk := true
      , exchangeRefresh := Except.error "e", exchangePassword := Except.error "e" }
      ⟨some { mode := 0o644, modTime := 0, content := "abc" }⟩ =
      .error "refresh token cache is not properly protected" :=
  ⟨rfl, rfl⟩



/-- The spec-modelled SecretCodec is reversible. -/
lemma tokenDecrypt_tokenEncrypt (t : String) : TokenDecrypt (TokenEncrypt t) = t := by
  cases t with
  | mk l =>
    show (⟨l.reverse.reverse⟩ : String) = ⟨l⟩
    rw [List.reverse_reverse]

/-- The spec-modelled SecretCodec preserves length (a non-empty secret
stays non-empty on disk). -/
lemma tokenEncrypt_length (t : String) : (TokenEncrypt t).length = t.length := by
  cases t with
  | mk l =>
    show l.reverse.length = l.length
    rw [List.length_reverse]

/-- When a held token needs renewal and the attempt fails, `AuthCheck`
propagates the error exactly when `expires` is strictly before `now`,
and otherwise answers success with the old session. -/
lemma authCheck_renew_error (env : Env) (mem : TadoMem) (fs : FS)
    (aq rf : Nat) (e : String)
    (hra : renewAttempt env fs = (.error e, aq, rf))
    (h1 : 0 < mem.accessToken.length) (h2 : mem.refresh ≤ env.now) :
    AuthCheck env mem fs =
      if mem.expires < env.now then ⟨.error e, mem, fs, aq, rf⟩
      else ⟨.ok (), mem, fs, aq, rf⟩ := by
  unfold AuthCheck
  rw [if_pos (And.intro h1 h2)]
  simp only [hra]
  by_cases hexp : mem.expires < env.now
  · rw [if_pos hexp, if_pos hexp]
  · rw [if_neg hexp, if_neg hexp]
    unfold authCheckTail
    rw [if_neg (by omega : ¬mem.accessToken.length = 0)]

/-- C3 (amended): with a held access token past its renewal watermark,
a failed refresh-or-acquire attempt is swallowed and `AuthCheck` returns
success with the unchanged session whenever `now ≤ expires`; the failure
is propagated only when `now` is strictly past `expires` (at
`now = expires` the code still swallows it, since it tests
`expires.Before(now)`). -/
theorem c3_soft_renewal (env : Env) (mem : TadoMem) (fs : FS) (e : String) :
    (0 < mem.accessToken.length → mem.refresh ≤ env.now → env.now ≤ mem.expires →
      (renewAttempt env fs).1 = .error e →
      AuthCheck env mem fs =
        ⟨.ok (), mem, fs, (renewAttempt env fs).2.1, (renewAttempt env fs).2.2⟩) ∧
    (0 < mem.accessToken.length → mem.refresh ≤ env.now → mem.expires < env.now →
      (renewAttempt env fs).1 = .error e →
      AuthCheck env mem fs =
        ⟨.error e, mem, fs, (renewAttempt env fs).2.1, (renewAttempt env fs).2.2⟩) := by
  constructor
  · intro h1 h2 h3 h4
    rcases hra : renewAttempt env fs with ⟨res, aq, rf⟩
    rw [hra] at h4
    simp only at h4
    subst h4
    rw [authCheck_renew_error env mem fs aq rf e hra h1 h2,
      if_neg (not_lt.mpr h3)]
  · intro h1 h2 h3 h4
    rcases hra : renewAttempt env fs with ⟨res, aq, rf⟩
    rw [hra] at h4
    simp only at h4
    subst h4
    rw [authCheck_renew_error env mem fs aq rf e hra h1 h2, if_pos h3]

/-- C5 (amended): when the configured path already holds a file with
owner-only mode `0600` (as `main` creates at startup), a successful
`SaveRefreshToken` of a non-empty secret followed by `GetRefreshToken`
within the freshness window returns exactly that secret, and the saved
file still satisfies the owner-only-permission trust precondition. -/
theorem c5_roundtrip_existing_file (env env2 : Env) (f : FileInfo)
    (token : String) (fs' : FS) :
    0 < token.length →
    f.mode = 0o600 →
    SaveRefreshToken env ⟨some f⟩ token = .ok fs' →
    ¬(env.now + freshnessWindow < env2.now) →
    GetRefreshToken env2 fs' = .ok token ∧
    fs'.file = some { mode := 0o600, modTime := env.now, content := TokenEncrypt token } := by
  intro hlen hmode hsave hfresh
  unfold SaveRefreshToken at hsave
  rw [if_neg (by omega : ¬token.length = 0)] at hsave
  by_cases hw : env.writeOk = false
  · rw [if_pos hw] at hsave
    exact absurd hsave (by simp)
  · rw [if_neg hw] at hsave
    injection hsave with hsave'
    subst hsave'
    constructor
    · simp only [GetRefreshToken]
      simp [hmode, hfresh, tokenEncrypt_length, tokenDecrypt_tokenEncrypt]
      intro h0
      exact absurd h0 (by omega)
    · simp [hmode]

/-- A successful save over a trusted credential file leaves a trusted
credential file: mode is preserved, the modification time becomes `now`
(fresh), and the obfuscated content of a non-empty token is non-empty. -/
lemma hasRefreshToken_save (env : Env) (fs : FS) (t : String) (fs' : FS)
    (h : HasRefreshToken env fs = true) (hs : SaveRefreshToken env fs t = .ok fs') :
    HasRefreshToken env fs' = true := by
  unfold SaveRefreshToken at hs
  by_cases h0 : t.length = 0
  · rw [if_pos h0] at hs
    exact absurd hs (by simp)
  · rw [if_neg h0] at hs
    by_cases hw : env.writeOk = false
    · rw [if_pos hw] at hs
      exact absurd hs (by simp)
    · rw [if_neg hw] at hs
      injection hs with hs'
      subst hs'
      unfold HasRefreshToken at h ⊢
      have hstale : ¬env.now + freshnessWindow < env.now := by
        unfold freshnessWindow
        omega
      rcases hfile : fs.file with _ | f
      · rw [hfile] at h
        simp at h
      · rw [hfile] at h
        dsimp only at h ⊢
        by_cases hc1 : f.mode ≠ 0o600 ∧ env.windows = false
        · rw [if_pos hc1] at h
          simp at h
        · rw [if_neg hc1, if_neg hstale, tokenEncrypt_length, if_neg h0]

/-- A successful `RefreshToken` leaves `HasRefreshToken` true: the new
file state comes from saving the exchange's non-empty refresh token over
the existing trusted file. -/
lemma hasRefreshToken_refresh (env : Env) (fs : FS) (mem1 : TadoMem) (fs1 : FS)
    (h : HasRefreshToken env fs = true) (hr : RefreshToken env fs = .ok (mem1, fs1)) :
    HasRefreshToken env fs1 = true := by
  unfold RefreshToken at hr
  rw [if_neg (by simp [h] : ¬HasRefreshToken env fs = false)] at hr
  split at hr
  · exact absurd hr (by simp)
  split at hr
  · exact absurd hr (by simp)
  next tokens hex =>
    split at hr
    · exact absurd hr (by simp)
    next fs2 hsv =>
      injection hr with hr'
      injection hr' with hmem hfs
      subst hfs
      exact hasRefreshToken_save env fs tokens.RefreshToken fs2 h hsv

/-- The no-token block of `AuthCheck` issues no acquire-by-password call
while a stored credential is available. -/
lemma authCheckTail_aquire (env : Env) (mem : TadoMem) (fs : FS) (aq rf : Nat)
    (h : HasRefreshToken env fs = true) :
    (authCheckTail env mem fs aq rf).aquireCalls = aq := by
  unfold authCheckTail
  by_cases hlen : mem.accessToken.length = 0
  · rw [if_pos hlen]
    unfold renewAttempt
    rw [if_pos h]
    cases hres : RefreshToken env fs with
    | error e => simp [hres]
    | ok p =>
      rcases p with ⟨mem1, fs1⟩
      by_cases h1 : mem1.accessToken.length = 0 <;> simp [hres, h1]
  · rw [if_neg hlen]

/-- C8: in every state in which a persisted, fresh, correctly-permissioned
credential exists (`HasRefreshToken` true), a full `AuthCheck` call never
invokes acquire-by-password (`AquireToken`) — even when the refresh
attempt itself fails. -/
theorem c8_no_password_with_stored_credential (env : Env) (mem : TadoMem) (fs : FS)
    (h : HasRefreshToken env fs = true) :
    (AuthCheck env mem fs).aquireCalls = 0 := by
  unfold AuthCheck
  by_cases hcond : 0 < mem.accessToken.length ∧ mem.refresh ≤ env.now
  · rw [if_pos hcond]
    unfold renewAttempt
    rw [if_pos h]
    cases hres : RefreshToken env fs with
    | error e =>
      by_cases hexp : mem.expires < env.now
      · simp [hres, hexp]
      · simp [hres, hexp, authCheckTail_aquire env mem fs 0 1 h]
    | ok p =>
      rcases p with ⟨mem1, fs1⟩
      have h1 : HasRefreshToken env fs1 = true :=
        hasRefreshToken_refresh env fs mem1 fs1 h hres
      simp [hres, authCheckTail_aquire env mem1 fs1 0 1 h1]
  · rw [if_neg hcond]
    exact authCheckTail_aquire env mem fs 0 0 h

/-- C3 witness: with a refresh exchange failing as `invalid_grant`, the
soft case returns success with the old session and the hard-expired case
propagates the error. -/
theorem c3_soft_renewal_witness :
    AuthCheck envSoft memSoft fsGood = ⟨.ok (), memSoft, fsGood, 0, 1⟩ ∧
    AuthCheck envSoft memHard fsGood =
      ⟨.error "could not get token: invalid_grant", memHard, fsGood, 0, 1⟩ := by
  constructor
  · exact (c3_soft_renewal envSoft memSoft fsGood "could not get token: invalid_grant").1
      (by decide) (by decide) (by decide) rfl
  · exact (c3_soft_renewal envSoft memHard fsGood "could not get token: invalid_grant").2
      (by decide) (by decide) (by decide) rfl

/-- C3 counterexample: at `now` exactly equal to `expires` — the claim's
ExpiredAccessSession, `now ≥ expiry` — a failed refresh is still
swallowed and `AuthCheck` reports success. -/
theorem c3_expiry_boundary_swallowed :
    memBoundary.expires ≤ envSoft.now ∧
    (renewAttempt envSoft fsGood).1 = .error "could not get token: invalid_grant" ∧
    (AuthCheck envSoft memBoundary fsGood).result = .ok () :=
  ⟨by decide, rfl, rfl⟩

/-- C5 witness: saving "secret" over an existing `0600` file and loading
it back returns "secret". -/
theorem c5_roundtrip_existing_file_witness :
    GetRefreshToken envRT ⟨some { mode := 0o600, modTime := 0, content := "terces" }⟩ =
      .ok "secret" ∧
    (FS.mk (some { mode := 0o600, modTime := 0, content := "terces" })).file =
      some { mode := 0o600, modTime := 0, content := TokenEncrypt "secret" } :=
  c5_roundtrip_existing_file envRT envRT { mode := 0o600, modTime := -3, content := "x" }
    "secret" ⟨some { mode := 0o600, modTime := 0, content := "terces" }⟩
    (by decide) rfl rfl (by decide)

/-- C5 counterexample: saving to a path with no existing file succeeds
but creates the file with mode `0644` (the code passes `0666` to
`WriteFile`, masked by the default umask `022`), so the subsequent load
fails the owner-only-permission check with an error instead of returning
the secret. -/
theorem c5_fresh_file_not_trusted :
    SaveRefreshToken envRT ⟨none⟩ "secret" =
      .ok ⟨some { mode := 0o644, modTime := 0, content := "terces" }⟩ ∧
    GetRefreshToken envRT ⟨some { mode := 0o644, modTime := 0, content := "terces" }⟩ =
      .error "refresh token cache is not properly protected" :=
  ⟨rfl, rfl⟩

/-- C8 witness: with a valid stored credential and a failing refresh
exchange, `AuthCheck` still issues zero acquire-by-password calls. -/
theorem c8_no_password_with_stored_credential_witness :
    (AuthCheck envSoft memSoft fsGood).aquireCalls = 0 :=
  c8_no_password_with_stored_credential envSoft memSoft fsGood rfl

end Gotadoflux
